import Mathlib

/-!
Verification development for the YaYa Wallet webhook service.

The definitions below are a shallow embedding of the TypeScript sources:
* `src/types/webhook.ts` — the data model (`YaYaWebhookPayload`,
  `WebhookVerificationResult`, `WebhookProcessingResult`, `WebhookConfig`);
* `src/services/webhookVerification.ts` — `verifyWebhook`,
  `generateSignature`, `createSignedPayload`, `verifyTimestamp`,
  `isTrustedIp`;
* `src/services/webhookProcessor.ts` — `processWebhook`;
* `src/controllers/webhookController.ts` — `handleWebhook`.

Modelling conventions:
* JS numbers that the boundary layer validates as numeric (amount,
  created_at_time, timestamp, tolerance) are embedded as `Int`; the
  JS rendering `n.toString()` of an integral number is `toString : Int → String`.
* Ambient effects are explicit parameters: `Date.now()` (already divided
  by 1000 and floored in the source) becomes a `now : Int` argument,
  `process.env.NODE_ENV` becomes a `nodeEnv : String` argument.
* The JS comparison `tolerance / 1000` is exact rational division compared
  against an integer delta; for an integer `delta`,
  `delta > tolerance / 1000` over ℚ is equivalent to
  `delta > Int.fdiv tolerance 1000` (floor division), which is the form
  used here.
* `crypto.createHmac('sha256', secret).update(m, 'utf8').digest('hex')` is
  embedded as a full executable HMAC-SHA256 (FIPS 180-4 / RFC 2104) over
  byte lists, with lowercase hex output, matching Node's semantics.
* The `try`/`catch` in `verifyWebhook` guards a body that is total in this
  embedding, so the `catch` branch (`'Verification failed'`) is
  unreachable and does not appear.
-/

/-- Data model of `YaYaWebhookPayload` from `src/types/webhook.ts`. -/
structure YaYaWebhookPayload where
  id : String
  amount : Int
  currency : String
  created_at_time : Int
  timestamp : Int
  cause : String
  full_name : String
  account_name : String
  invoice_url : String
deriving DecidableEq, Repr

/-- Data model of `WebhookVerificationResult` from `src/types/webhook.ts`;
the TS optional fields become `Option`. -/
structure WebhookVerificationResult where
  isValid : Bool
  error : Option String
  timestamp : Option Int
deriving DecidableEq, Repr

/-- Data model of `WebhookConfig` from `src/types/webhook.ts`. -/
structure WebhookConfig where
  secret : String
  timestampTolerance : Int
  trustedIps : List String
deriving DecidableEq, Repr

/-- Result of the internal `verifyTimestamp` helper
(`{ isValid: boolean; error?: string }`). -/
structure TimestampVerification where
  isValid : Bool
  error : Option String
deriving DecidableEq, Repr

/-- `createSignedPayload` from `webhookVerification.ts` lines 77–89:
the nine field values, stringified, joined with no separator. -/
def createSignedPayload (payload : YaYaWebhookPayload) : String :=
  String.join [
    payload.id,
    toString payload.amount,
    payload.currency,
    toString payload.created_at_time,
    toString payload.timestamp,
    payload.cause,
    payload.full_name,
    payload.account_name,
    payload.invoice_url
  ]

/-- The interpolated message of `verifyTimestamp`:
`Timestamp too old. Difference: <d>s, Tolerance: <t>s`. -/
def timestampErrorMessage (timeDifference toleranceSeconds : Int) : String :=
  "Timestamp too old. Difference: " ++ toString timeDifference ++
    "s, Tolerance: " ++ toString toleranceSeconds ++ "s"

/-- `verifyTimestamp` from `webhookVerification.ts` lines 91–103.
`now` is `Math.floor(Date.now() / 1000)` passed explicitly;
`Math.abs(currentTime - receivedTimestamp)` is `Int.natAbs`;
the JS comparison against the rational `tolerance / 1000` is equivalent,
for an integer difference, to comparison against `Int.fdiv tolerance 1000`. -/
def verifyTimestamp (receivedTimestamp : Int) (tolerance : Int) (now : Int) :
    TimestampVerification :=
  let currentTime := now
  let timeDifference : Int := (currentTime - receivedTimestamp).natAbs
  if timeDifference > Int.fdiv tolerance 1000 then
    { isValid := false,
      error := some (timestampErrorMessage timeDifference (Int.fdiv tolerance 1000)) }
  else
    { isValid := true, error := none }

/-- `isTrustedIp` from `webhookVerification.ts` lines 105–112.
`process.env.NODE_ENV` is the explicit `nodeEnv` argument;
`config.trustedIps.includes(clientIp)` is `List.contains`. -/
def isTrustedIp (clientIp : String) (config : WebhookConfig) (nodeEnv : String) : Bool :=
  if nodeEnv == "development" && clientIp == "::1" then
    true
  else
    config.trustedIps.contains clientIp

/-- UTF-8 encoding of one Unicode scalar value, as Node's
`Buffer.from(s, 'utf8')` produces it. -/
def utf8EncodeChar (c : Char) : List Nat :=
  let n := c.toNat
  if n < 0x80 then [n]
  else if n < 0x800 then [0xC0 + n / 64, 0x80 + n % 64]
  else if n < 0x10000 then [0xE0 + n / 4096, 0x80 + (n / 64) % 64, 0x80 + n % 64]
  else [0xF0 + n / 262144, 0x80 + (n / 4096) % 64, 0x80 + (n / 64) % 64, 0x80 + n % 64]

/-- UTF-8 byte sequence of a string (`update(..., 'utf8')`). -/
def utf8Bytes (s : String) : List Nat :=
  (s.data.map utf8EncodeChar).flatten

/-- Truncation to a 32-bit word. -/
def w32 (n : Nat) : Nat := n % 2 ^ 32

/-- Right rotation of a 32-bit word by `k` bits. -/
def rotr32 (k x : Nat) : Nat := x / 2 ^ k + x % 2 ^ k * 2 ^ (32 - k)

/-- SHA-256 choice function `Ch(e,f,g)`; bitwise-not is xor with the
32-bit mask. -/
def shaCh (e f g : Nat) : Nat := (e &&& f) ^^^ ((e ^^^ (2 ^ 32 - 1)) &&& g)

/-- SHA-256 majority function `Maj(a,b,c)`. -/
def shaMaj (a b c : Nat) : Nat := (a &&& b) ^^^ (a &&& c) ^^^ (b &&& c)

/-- SHA-256 Σ₀. -/
def bigSigma0 (x : Nat) : Nat := rotr32 2 x ^^^ rotr32 13 x ^^^ rotr32 22 x

/-- SHA-256 Σ₁. -/
def bigSigma1 (x : Nat) : Nat := rotr32 6 x ^^^ rotr32 11 x ^^^ rotr32 25 x

/-- SHA-256 σ₀. -/
def smallSigma0 (x : Nat) : Nat := rotr32 7 x ^^^ rotr32 18 x ^^^ x / 2 ^ 3

/-- SHA-256 σ₁. -/
def smallSigma1 (x : Nat) : Nat := rotr32 17 x ^^^ rotr32 19 x ^^^ x / 2 ^ 10

/-- The eight SHA-256 working variables. -/
structure SHAState where
  a : Nat
  b : Nat
  c : Nat
  d : Nat
  e : Nat
  f : Nat
  g : Nat
  h : Nat
deriving DecidableEq, Repr

/-- FIPS 180-4 initial hash value for SHA-256 (H0 through H7, written in
decimal: 6a09e667, bb67ae85, 3c6ef372, a54ff53a, 510e527f, 9b05688c,
1f83d9ab, 5be0cd19 in hex). -/
def initialHash : SHAState :=
  ⟨1779033703, 3144134277, 1013904242, 2773480762,
   1359893119, 2600822924, 528734635, 1541459225⟩

/-- FIPS 180-4 SHA-256 round constants K0 through K63, written in
decimal (the first is 428a2f98 in hex, the last c67178f2). -/
def shaK : List Nat :=
  [1116352408, 1899447441, 3049323471, 3921009573, 961987163,
    1508970993, 2453635748, 2870763221, 3624381080, 310598401,
    607225278, 1426881987, 1925078388, 2162078206, 2614888103,
    3248222580, 3835390401, 4022224774, 264347078, 604807628,
    770255983, 1249150122, 1555081692, 1996064986, 2554220882,
    2821834349, 2952996808, 3210313671, 3336571891, 3584528711,
    113926993, 338241895, 666307205, 773529912, 1294757372,
    1396182291, 1695183700, 1986661051, 2177026350, 2456956037,
    2730485921, 2820302411, 3259730800, 3345764771, 3516065817,
    3600352804, 4094571909, 275423344, 430227734, 506948616,
    659060556, 883997877, 958139571, 1322822218, 1537002063,
    1747873779, 1955562222, 2024104815, 2227730452, 2361852424,
    2428436474, 2756734187, 3204031479, 3329325298]

/-- One SHA-256 compression round for constant-word pair `kw`. -/
def compressStep (st : SHAState) (kw : Nat × Nat) : SHAState :=
  let t1 := w32 (st.h + bigSigma1 st.e + shaCh st.e st.f st.g + kw.1 + kw.2)
  let t2 := w32 (bigSigma0 st.a + shaMaj st.a st.b st.c)
  ⟨w32 (t1 + t2), st.a, st.b, st.c, w32 (st.d + t1), st.e, st.f, st.g⟩

/-- Componentwise 32-bit addition of hash states. -/
def addState (x y : SHAState) : SHAState :=
  ⟨w32 (x.a + y.a), w32 (x.b + y.b), w32 (x.c + y.c), w32 (x.d + y.d),
   w32 (x.e + y.e), w32 (x.f + y.f), w32 (x.g + y.g), w32 (x.h + y.h)⟩

/-- Big-endian grouping of bytes into 32-bit words. -/
def bytesToWords : List Nat → List Nat
  | b0 :: b1 :: b2 :: b3 :: rest =>
      (b0 * 2 ^ 24 + b1 * 2 ^ 16 + b2 * 2 ^ 8 + b3) :: bytesToWords rest
  | _ => []

/-- Message-schedule extension: appends `fuel` further words `W_t`. -/
def extendSchedule : Nat → List Nat → List Nat
  | 0, ws => ws
  | fuel + 1, ws =>
      let len := ws.length
      let w := w32 (smallSigma1 (ws.getD (len - 2) 0) + ws.getD (len - 7) 0 +
        smallSigma0 (ws.getD (len - 15) 0) + ws.getD (len - 16) 0)
      extendSchedule fuel (ws ++ [w])

/-- SHA-256 compression of one 64-byte block. -/
def compressBlock (st : SHAState) (block : List Nat) : SHAState :=
  let ws := extendSchedule 48 (bytesToWords block)
  addState st ((shaK.zip ws).foldl compressStep st)

/-- The 8-byte big-endian encoding of the message bit length. -/
def lengthBytes (bitLen : Nat) : List Nat :=
  [bitLen / 2 ^ 56 % 256, bitLen / 2 ^ 48 % 256, bitLen / 2 ^ 40 % 256,
   bitLen / 2 ^ 32 % 256, bitLen / 2 ^ 24 % 256, bitLen / 2 ^ 16 % 256,
   bitLen / 2 ^ 8 % 256, bitLen % 256]

/-- FIPS 180-4 padding: `0x80`, zeros to 56 mod 64, then the bit length. -/
def padMessage (msg : List Nat) : List Nat :=
  msg ++ [0x80] ++ List.replicate ((119 - msg.length % 64) % 64) 0 ++
    lengthBytes (8 * msg.length)

/-- Splits a byte list into 64-byte blocks; the fuel (any bound of the
number of blocks, here the length itself) keeps the recursion structural
so that proofs can evaluate it. -/
def toBlocksFuel : Nat → List Nat → List (List Nat)
  | 0, _ => []
  | _, [] => []
  | fuel + 1, msg => msg.take 64 :: toBlocksFuel fuel (msg.drop 64)

/-- Big-endian bytes of a 32-bit word. -/
def wordBytes (w : Nat) : List Nat :=
  [w / 2 ^ 24 % 256, w / 2 ^ 16 % 256, w / 2 ^ 8 % 256, w % 256]

/-- The 32-byte digest of a final hash state. -/
def digestBytes (st : SHAState) : List Nat :=
  wordBytes st.a ++ wordBytes st.b ++ wordBytes st.c ++ wordBytes st.d ++
    wordBytes st.e ++ wordBytes st.f ++ wordBytes st.g ++ wordBytes st.h

/-- SHA-256 of a byte list (FIPS 180-4). -/
def sha256 (msg : List Nat) : List Nat :=
  let padded := padMessage msg
  digestBytes ((toBlocksFuel padded.length padded).foldl compressBlock initialHash)

/-- HMAC-SHA256 (RFC 2104), block size 64, as Node's
`crypto.createHmac('sha256', key)` computes it. -/
def hmacSha256 (key msg : List Nat) : List Nat :=
  let k0 := if key.length > 64 then sha256 key else key
  let kpad := k0 ++ List.replicate (64 - k0.length) 0
  sha256 (kpad.map (fun b => b ^^^ 0x5c) ++
    sha256 (kpad.map (fun b => b ^^^ 0x36) ++ msg))

/-- The sixteen lowercase hex digits. -/
def hexDigits : List Char := "0123456789abcdef".data

/-- Lowercase hex digit of a value below 16. -/
def hexDigitChar (n : Nat) : Char := hexDigits.getD n '0'

/-- Two lowercase hex digits of a byte (`digest('hex')` rendering). -/
def byteToHex (b : Nat) : List Char := [hexDigitChar (b / 16 % 16), hexDigitChar (b % 16)]

/-- Lowercase hex string of a byte list, as Node's `digest('hex')`. -/
def hexEncode (bytes : List Nat) : String := ⟨(bytes.map byteToHex).flatten⟩

/-- `generateSignature` from `webhookVerification.ts` lines 68–75:
HMAC-SHA256 of the UTF-8 canonical payload with the UTF-8 secret,
hex-encoded lowercase. -/
def generateSignature (payload : YaYaWebhookPayload) (secret : String) : String :=
  let signedPayload := createSignedPayload payload
  hexEncode (hmacSha256 (utf8Bytes secret) (utf8Bytes signedPayload))

/-- `verifyWebhook` from `webhookVerification.ts` lines 9–66: IP check,
then signature check, then timestamp check, each short-circuiting.
The `try`/`catch` wraps a body that is total here, so the `catch`
branch is unreachable and omitted. -/
def verifyWebhook (payload : YaYaWebhookPayload) (signature : String)
    (clientIp : String) (config : WebhookConfig) (nodeEnv : String) (now : Int) :
    WebhookVerificationResult :=
  if !isTrustedIp clientIp config nodeEnv then
    { isValid := false, error := some "Untrusted IP address", timestamp := none }
  else
    let expectedSignature := generateSignature payload config.secret
    if signature ≠ expectedSignature then
      { isValid := false, error := some "Invalid signature", timestamp := none }
    else
      let timestampVerification :=
        verifyTimestamp payload.timestamp config.timestampTolerance now
      if !timestampVerification.isValid then
        { isValid := false, error := timestampVerification.error, timestamp := none }
      else
        { isValid := true, error := none, timestamp := some payload.timestamp }

/-- Data model of `WebhookProcessingResult` from `src/types/webhook.ts`;
the `Date` field `processedAt` is the explicit clock value. -/
structure WebhookProcessingResult where
  success : Bool
  message : String
  transactionId : Option String
  processedAt : Int
deriving DecidableEq, Repr

/-- Outcomes of the four awaited steps inside `processWebhook`
(`simulateProcessing`, `updateTransactionStatus`,
`sendCustomerNotification`, `updateAccountingSystem`). In the source all
four are logging stubs that always resolve; a JS `await` may nonetheless
reject, which is what the surrounding `try`/`catch` guards, so each step
is modelled as `Except`: `Except.error e` is a rejected promise with
reason `e`. -/
structure ProcessingEnv where
  simulateProcessing : Except String Unit
  updateTransactionStatus : Except String Unit
  sendCustomerNotification : Except String Unit
  updateAccountingSystem : Except String Unit
deriving Repr

/-- The four sequential awaits in the `try` block of `processWebhook`
(`webhookProcessor.ts` lines 14–17); the first rejection aborts the
sequence, as a thrown JS exception would. -/
def runProcessingSteps (env : ProcessingEnv) : Except String Unit := do
  env.simulateProcessing
  env.updateTransactionStatus
  env.sendCustomerNotification
  env.updateAccountingSystem

/-- `processWebhook` from `webhookProcessor.ts` lines 5–42: runs the
pipeline inside `try`/`catch`; the `catch` converts any step failure into
a resolved failure result, so the promise never rejects. `now` is the
`new Date()` value of the completion time. -/
def processWebhook (env : ProcessingEnv) (payload : YaYaWebhookPayload)
    (now : Int) : WebhookProcessingResult :=
  match runProcessingSteps env with
  | Except.ok _ =>
      { success := true, message := "Webhook processed successfully",
        transactionId := some payload.id, processedAt := now }
  | Except.error _ =>
      { success := false, message := "Webhook processing failed",
        transactionId := some payload.id, processedAt := now }

/-- The caller-visible HTTP response assembled by `handleWebhook`
(`webhookController.ts`): status plus the JSON body fields it sets. -/
structure HttpResponse where
  status : Nat
  success : Option Bool
  message : Option String
  transactionId : Option String
  error : Option String
deriving DecidableEq, Repr

/-- What one request produces: the response sent to the caller, and the
result of the deferred (`setImmediate`) processing task if one was
scheduled. The deferred result is only logged, never sent. -/
structure DispatchOutcome where
  response : HttpResponse
  deferredResult : Option WebhookProcessingResult
deriving DecidableEq, Repr

/-- `handleWebhook` from `webhookController.ts` lines 20–96.
`validationFailed` is the outcome of the express-validator rules
(`!errors.isEmpty()`); on verification success the 200 response is
assembled first and the processing pipeline runs afterwards inside
`setImmediate` with its own `try`/`catch`, so its outcome lands only in
`deferredResult`. -/
def handleWebhook (payload : YaYaWebhookPayload) (signature clientIp : String)
    (webhookConfig : WebhookConfig) (nodeEnv : String) (now : Int)
    (validationFailed : Bool) (env : ProcessingEnv) : DispatchOutcome :=
  if validationFailed then
    { response := { status := 400, success := none, message := none,
                    transactionId := none, error := some "Invalid request body" },
      deferredResult := none }
  else
    let verificationResult := verifyWebhook payload signature clientIp webhookConfig nodeEnv now
    if !verificationResult.isValid then
      { response := { status := 401, success := none,
                      message := verificationResult.error,
                      transactionId := none,
                      error := some "Webhook verification failed" },
        deferredResult := none }
    else
      { response := { status := 200, success := some true,
                      message := some "Webhook received successfully",
                      transactionId := some payload.id, error := none },
        deferredResult := some (processWebhook env payload now) }

/-- The concrete payload of the spec's test scenario, with the replay
timestamp left as a parameter. -/
def samplePayload (t : Int) : YaYaWebhookPayload :=
  { id := "1dd2854e-3a79-4548-ae36-97e4a18ebf81", amount := 100, currency := "ETB",
    created_at_time := 1673381836, timestamp := t, cause := "Testing",
    full_name := "Abebe Kebede", account_name := "abebekebede1",
    invoice_url := "https://yayawallet.com/en/invoice/xxxx" }

theorem string_join_nine (a b c d e f g h i : String) :
    String.join [a, b, c, d, e, f, g, h, i] =
      a ++ b ++ c ++ d ++ e ++ f ++ g ++ h ++ i := by
  apply String.ext
  simp [String.join, String.data_append]

/-- C1: the canonical serialization concatenates the string forms of the
nine fields in the fixed order id, amount, currency, created_at_time,
timestamp, cause, full_name, account_name, invoice_url with no
separators, numbers in decimal form; on the spec's concrete payload it
yields the expected canonical string for every replay timestamp. -/
theorem c1_canonical_serialization :
    (∀ p : YaYaWebhookPayload,
      createSignedPayload p =
        p.id ++ toString p.amount ++ p.currency ++ toString p.created_at_time ++
          toString p.timestamp ++ p.cause ++ p.full_name ++ p.account_name ++
          p.invoice_url) ∧
    (∀ t : Int,
      createSignedPayload (samplePayload t) =
        "1dd2854e-3a79-4548-ae36-97e4a18ebf81100ETB1673381836" ++ toString t ++
          "TestingAbebe Kebedeabebekebede1https://yayawallet.com/en/invoice/xxxx") := by
  constructor
  · intro p
    exact string_join_nine ..
  · intro t
    show String.join _ = _
    rw [string_join_nine]
    have h100 : toString (100 : Int) = "100" := rfl
    have hcat : toString (1673381836 : Int) = "1673381836" := rfl
    simp only [samplePayload, h100, hcat]
    apply String.ext
    simp [String.data_append, List.append_assoc]

/-- A representative verification config used to instantiate theorems with
hypotheses on concrete inputs. -/
def sampleConfig : WebhookConfig :=
  { secret := "s3cr3t", timestampTolerance := 300000,
    trustedIps := ["127.0.0.1", "192.168.1.1"] }

theorem verifyTimestamp_cases (receivedTimestamp tolerance now : Int) :
    verifyTimestamp receivedTimestamp tolerance now =
      { isValid := true, error := none } ∨
    verifyTimestamp receivedTimestamp tolerance now =
      { isValid := false,
        error := some (timestampErrorMessage ((now - receivedTimestamp).natAbs : Int)
          (Int.fdiv tolerance 1000)) } := by
  simp only [verifyTimestamp]
  split
  · exact Or.inr rfl
  · exact Or.inl rfl

/-- C3: the three checks run in the order IP, signature, timestamp; the
first failure short-circuits (an untrusted IP is reported whatever the
signature is), each failing request gets exactly the one error of its
first failing check, and the verdict is valid exactly when all three
checks pass. -/
theorem c3_check_order_short_circuit
    (payload : YaYaWebhookPayload) (signature clientIp : String)
    (config : WebhookConfig) (nodeEnv : String) (now : Int) :
    (isTrustedIp clientIp config nodeEnv = false →
      verifyWebhook payload signature clientIp config nodeEnv now =
        { isValid := false, error := some "Untrusted IP address", timestamp := none }) ∧
    (isTrustedIp clientIp config nodeEnv = true →
      signature ≠ generateSignature payload config.secret →
      verifyWebhook payload signature clientIp config nodeEnv now =
        { isValid := false, error := some "Invalid signature", timestamp := none }) ∧
    (isTrustedIp clientIp config nodeEnv = true →
      signature = generateSignature payload config.secret →
      (verifyTimestamp payload.timestamp config.timestampTolerance now).isValid = false →
      verifyWebhook payload signature clientIp config nodeEnv now =
        { isValid := false,
          error := (verifyTimestamp payload.timestamp config.timestampTolerance now).error,
          timestamp := none }) ∧
    ((verifyWebhook payload signature clientIp config nodeEnv now).isValid = true ↔
      isTrustedIp clientIp config nodeEnv = true ∧
      signature = generateSignature payload config.secret ∧
      (verifyTimestamp payload.timestamp config.timestampTolerance now).isValid = true) := by
  cases h1 : isTrustedIp clientIp config nodeEnv <;>
    by_cases h2 : signature = generateSignature payload config.secret <;>
      cases h3 : (verifyTimestamp payload.timestamp config.timestampTolerance now).isValid <;>
        simp [verifyWebhook, h1, h2, h3]

/-- Closed instance of C3: a request from an IP outside the trusted list
is rejected as untrusted even though its signature is also wrong. -/
theorem c3_check_order_short_circuit_witness :
    verifyWebhook (samplePayload 1701272333) "wrong-signature" "203.0.113.9"
      sampleConfig "production" 1701272333 =
      { isValid := false, error := some "Untrusted IP address", timestamp := none } :=
  (c3_check_order_short_circuit (samplePayload 1701272333) "wrong-signature"
    "203.0.113.9" sampleConfig "production" 1701272333).1 (by decide)

/-- C4: the timestamp check compares the absolute difference between the
clock and the payload timestamp (in seconds) against the tolerance
divided by 1000; equality is accepted, strict excess is rejected with the
message carrying the observed difference and the tolerance in seconds. -/
theorem c4_timestamp_tolerance_boundary (receivedTimestamp tolerance now : Int) :
    (((now - receivedTimestamp).natAbs : Int) ≤ Int.fdiv tolerance 1000 →
      verifyTimestamp receivedTimestamp tolerance now =
        { isValid := true, error := none }) ∧
    (((now - receivedTimestamp).natAbs : Int) = Int.fdiv tolerance 1000 →
      (verifyTimestamp receivedTimestamp tolerance now).isValid = true) ∧
    (((now - receivedTimestamp).natAbs : Int) > Int.fdiv tolerance 1000 →
      verifyTimestamp receivedTimestamp tolerance now =
        { isValid := false,
          error := some (timestampErrorMessage ((now - receivedTimestamp).natAbs : Int)
            (Int.fdiv tolerance 1000)) }) := by
  refine ⟨?_, ?_, ?_⟩ <;> intro h <;> simp only [verifyTimestamp]
  · rw [if_neg (by omega)]
  · rw [if_neg (by omega)]
  · rw [if_pos h]

/-- Closed instance of C4: a difference of exactly 300 s against a
300000 ms tolerance is accepted, and 301 s is rejected with the message
carrying both values. -/
theorem c4_timestamp_tolerance_boundary_witness :
    (verifyTimestamp 700 300000 1000).isValid = true ∧
    verifyTimestamp 699 300000 1000 =
      { isValid := false,
        error := some (timestampErrorMessage 301 300) } :=
  ⟨(c4_timestamp_tolerance_boundary 700 300000 1000).2.1 (by decide),
   (c4_timestamp_tolerance_boundary 699 300000 1000).2.2 (by decide)⟩

/-- C7: the timestamp check depends only on the absolute difference, so a
payload timestamp `d` seconds in the future of the clock gets the same
verdict as one `d` seconds in the past, and a future timestamp within
tolerance is accepted. -/
theorem c7_timestamp_future_past_symmetry (tolerance now d : Int) :
    (verifyTimestamp (now + d) tolerance now =
      verifyTimestamp (now - d) tolerance now) ∧
    (0 ≤ d → d ≤ Int.fdiv tolerance 1000 →
      (verifyTimestamp (now + d) tolerance now).isValid = true) := by
  constructor
  · simp only [verifyTimestamp]
    rw [show (now - (now + d)).natAbs = (now - (now - d)).natAbs by omega]
  · intro h0 hd
    simp only [verifyTimestamp]
    rw [if_neg (by omega)]

/-- Closed instance of C7: a timestamp 200 s in the future of the clock
is accepted under a 300000 ms tolerance, identically to 200 s in the
past. -/
theorem c7_timestamp_future_past_symmetry_witness :
    (verifyTimestamp (1000 + 200) 300000 1000).isValid = true ∧
    verifyTimestamp (1000 + 200) 300000 1000 =
      verifyTimestamp (1000 - 200) 300000 1000 :=
  ⟨(c7_timestamp_future_past_symmetry 300000 1000 200).2 (by decide) (by decide),
   (c7_timestamp_future_past_symmetry 300000 1000 200).1⟩

/-- A config whose trusted-IP set is empty, as in C5. -/
def emptyIpConfig : WebhookConfig :=
  { secret := "s3cr3t", timestampTolerance := 300000, trustedIps := [] }

/-- C5 counterexample: with an empty trusted-IP set, a request from the
loopback address `::1` in the development environment with a correct
signature and a current timestamp is accepted, so the empty set does not
reject every request in every environment. -/
theorem c5_counterexample :
    emptyIpConfig.trustedIps = [] ∧
    verifyWebhook (samplePayload 1701272333)
        (generateSignature (samplePayload 1701272333) emptyIpConfig.secret)
        "::1" emptyIpConfig "development" 1701272333 =
      { isValid := true, error := none, timestamp := some 1701272333 } := by
  refine ⟨rfl, ?_⟩
  unfold verifyWebhook
  rw [if_neg (by decide)]
  rw [if_neg (fun h => h rfl)]
  rw [if_neg (by decide)]
  rfl

/-- C5 amended: with an empty trusted-IP set, every request is rejected
with the untrusted-IP reason, except requests from `::1` in the
development environment (the dev loopback carve-out). -/
theorem c5_empty_trusted_ips_reject
    (payload : YaYaWebhookPayload) (signature clientIp : String)
    (config : WebhookConfig) (nodeEnv : String) (now : Int)
    (hempty : config.trustedIps = [])
    (hcarve : ¬(nodeEnv = "development" ∧ clientIp = "::1")) :
    verifyWebhook payload signature clientIp config nodeEnv now =
      { isValid := false, error := some "Untrusted IP address", timestamp := none } := by
  have hip : isTrustedIp clientIp config nodeEnv = false := by
    unfold isTrustedIp
    rw [hempty]
    by_cases h1 : nodeEnv = "development" <;> by_cases h2 : clientIp = "::1"
    · exact absurd ⟨h1, h2⟩ hcarve
    all_goals simp [h1, h2]
  simp [verifyWebhook, hip]

/-- Closed instance of the amended C5: outside the carve-out, the empty
trusted-IP set rejects even a correctly signed, current request. -/
theorem c5_empty_trusted_ips_reject_witness :
    verifyWebhook (samplePayload 1701272333)
        (generateSignature (samplePayload 1701272333) emptyIpConfig.secret)
        "127.0.0.1" emptyIpConfig "production" 1701272333 =
      { isValid := false, error := some "Untrusted IP address", timestamp := none } :=
  c5_empty_trusted_ips_reject (samplePayload 1701272333)
    (generateSignature (samplePayload 1701272333) emptyIpConfig.secret)
    "127.0.0.1" emptyIpConfig "production" 1701272333 rfl (by decide)

/-- The fixed taxonomy of rejection reasons that `verifyWebhook` can
attach to an invalid verdict. -/
def reasonTaxonomy (e : String) : Prop :=
  e = "Untrusted IP address" ∨ e = "Invalid signature" ∨
    ∃ d t : Int, e = timestampErrorMessage d t

theorem verifyWebhook_outcomes
    (payload : YaYaWebhookPayload) (signature clientIp : String)
    (config : WebhookConfig) (nodeEnv : String) (now : Int) :
    verifyWebhook payload signature clientIp config nodeEnv now =
      { isValid := false, error := some "Untrusted IP address", timestamp := none } ∨
    verifyWebhook payload signature clientIp config nodeEnv now =
      { isValid := false, error := some "Invalid signature", timestamp := none } ∨
    (∃ d t : Int, verifyWebhook payload signature clientIp config nodeEnv now =
      { isValid := false, error := some (timestampErrorMessage d t), timestamp := none }) ∨
    verifyWebhook payload signature clientIp config nodeEnv now =
      { isValid := true, error := none, timestamp := some payload.timestamp } := by
  rcases verifyTimestamp_cases payload.timestamp config.timestampTolerance now with h3 | h3 <;>
    cases h1 : isTrustedIp clientIp config nodeEnv <;>
      by_cases h2 : signature = generateSignature payload config.secret <;>
        simp [verifyWebhook, h1, h2, h3]

/-- C6: `verifyWebhook` is a total function returning a typed verdict:
the error is present exactly when the verdict is invalid and is always
drawn from the fixed reason taxonomy, and the timestamp is present
exactly when the verdict is valid, in which case it echoes the payload
timestamp. -/
theorem c6_total_verdict_shape
    (payload : YaYaWebhookPayload) (signature clientIp : String)
    (config : WebhookConfig) (nodeEnv : String) (now : Int) :
    ((verifyWebhook payload signature clientIp config nodeEnv now).error.isSome = true ↔
      (verifyWebhook payload signature clientIp config nodeEnv now).isValid = false) ∧
    (∀ e : String,
      (verifyWebhook payload signature clientIp config nodeEnv now).error = some e →
      reasonTaxonomy e) ∧
    ((verifyWebhook payload signature clientIp config nodeEnv now).timestamp.isSome = true ↔
      (verifyWebhook payload signature clientIp config nodeEnv now).isValid = true) ∧
    ((verifyWebhook payload signature clientIp config nodeEnv now).isValid = true →
      (verifyWebhook payload signature clientIp config nodeEnv now).timestamp =
        some payload.timestamp) := by
  rcases verifyWebhook_outcomes payload signature clientIp config nodeEnv now with
    h | h | ⟨d, t, h⟩ | h <;> rw [h]
  · exact ⟨by simp, fun e he => by simp at he; exact Or.inl he.symm, by simp, by simp⟩
  · exact ⟨by simp, fun e he => by simp at he; exact Or.inr (Or.inl he.symm), by simp, by simp⟩
  · exact ⟨by simp, fun e he => by simp at he; exact Or.inr (Or.inr ⟨d, t, he.symm⟩),
      by simp, by simp⟩
  · exact ⟨by simp, fun e he => by simp at he, by simp, fun _ => rfl⟩

/-- Closed instance of C6: on a concrete rejected request the attached
reason belongs to the taxonomy. -/
theorem c6_total_verdict_shape_witness : reasonTaxonomy "Untrusted IP address" :=
  (c6_total_verdict_shape (samplePayload 0) "sig" "198.51.100.7" sampleConfig
    "production" 0).2.1 "Untrusted IP address" (by decide)

/-- C9: `processWebhook` never rejects — it always resolves to a result
carrying the payload id, with success false and the fixed failure message
when an internal step fails; and the caller-visible response assembled by
`handleWebhook` is unaffected by the outcome of the deferred processing,
which the dispatcher runs after the response with its own catch. -/
theorem c9_processing_never_surfaces
    (payload : YaYaWebhookPayload) (env : ProcessingEnv) (now : Int) :
    (processWebhook env payload now).transactionId = some payload.id ∧
    (∀ e : String, runProcessingSteps env = Except.error e →
      processWebhook env payload now =
        { success := false, message := "Webhook processing failed",
          transactionId := some payload.id, processedAt := now }) ∧
    (∀ (signature clientIp : String) (config : WebhookConfig) (nodeEnv : String)
        (validationFailed : Bool) (env2 : ProcessingEnv),
      (handleWebhook payload signature clientIp config nodeEnv now
        validationFailed env).response =
      (handleWebhook payload signature clientIp config nodeEnv now
        validationFailed env2).response) := by
  refine ⟨?_, ?_, ?_⟩
  · unfold processWebhook
    cases runProcessingSteps env <;> rfl
  · intro e he
    unfold processWebhook
    rw [he]
  · intro signature clientIp config nodeEnv validationFailed env2
    unfold handleWebhook
    cases validationFailed
    · simp only [Bool.false_eq_true, if_false]
      cases (verifyWebhook payload signature clientIp config nodeEnv now).isValid <;> simp
    · simp

/-- An environment in which the second processing step rejects, used to
instantiate C9. -/
def failingEnv : ProcessingEnv :=
  { simulateProcessing := Except.ok (), updateTransactionStatus := Except.error "db down",
    sendCustomerNotification := Except.ok (), updateAccountingSystem := Except.ok () }

/-- Closed instance of C9: a failing internal step yields the failure
result that still carries the transaction id. -/
theorem c9_processing_never_surfaces_witness :
    processWebhook failingEnv (samplePayload 0) 5 =
      { success := false, message := "Webhook processing failed",
        transactionId := some (samplePayload 0).id, processedAt := 5 } :=
  (c9_processing_never_surfaces (samplePayload 0) failingEnv 5).2.1 "db down" rfl

theorem digestBytes_length (st : SHAState) : (digestBytes st).length = 32 := by
  simp [digestBytes, wordBytes]

theorem sha256_length (msg : List Nat) : (sha256 msg).length = 32 := by
  unfold sha256
  exact digestBytes_length _

theorem hmacSha256_length (key msg : List Nat) : (hmacSha256 key msg).length = 32 := by
  unfold hmacSha256
  exact sha256_length _

theorem hexEncode_length (bytes : List Nat) : (hexEncode bytes).length = 2 * bytes.length := by
  induction bytes with
  | nil => rfl
  | cons b bs ih =>
      show (List.length _) = _
      simp only [hexEncode, List.map_cons, List.flatten_cons] at ih ⊢
      simp only [List.length_append, byteToHex, List.length_cons, List.length_nil]
      have : (List.map byteToHex bs).flatten.length = 2 * bs.length := ih
      simp [this]
      omega

theorem hexDigitChar_mem (n : Nat) : hexDigitChar n ∈ hexDigits := by
  rcases Nat.lt_or_ge n 16 with h | h
  · interval_cases n <;> decide
  · have hlen : hexDigits.length = 16 := rfl
    have : hexDigits.length ≤ n := by omega
    rw [hexDigitChar, List.getD_eq_default _ _ this]
    decide

theorem hexEncode_chars (bytes : List Nat) :
    ∀ c ∈ (hexEncode bytes).data, c ∈ hexDigits := by
  intro c hc
  simp only [hexEncode, List.mem_flatten, List.mem_map] at hc
  obtain ⟨l, ⟨b, _, hb⟩, hcl⟩ := hc
  subst hb
  simp only [byteToHex, List.mem_cons, List.not_mem_nil, or_false] at hcl
  rcases hcl with h | h <;> subst h <;> exact hexDigitChar_mem _

/-- C10: for a trusted client, any supplied signature other than the
exact digest string — which is always 64 lowercase hexadecimal
characters — is rejected with the invalid-signature reason; the empty
string and an uppercase rendering of a digest containing a letter are
instances of such mismatches. -/
theorem c10_signature_exact_match
    (payload : YaYaWebhookPayload) (signature clientIp : String)
    (config : WebhookConfig) (nodeEnv : String) (now : Int) :
    (isTrustedIp clientIp config nodeEnv = true →
      signature ≠ generateSignature payload config.secret →
      verifyWebhook payload signature clientIp config nodeEnv now =
        { isValid := false, error := some "Invalid signature", timestamp := none }) ∧
    (generateSignature payload config.secret).length = 64 ∧
    (∀ c ∈ (generateSignature payload config.secret).data, c ∈ hexDigits) := by
  refine ⟨?_, ?_, ?_⟩
  · intro h1 h2
    simp [verifyWebhook, h1, h2]
  · show (hexEncode _).length = 64
    rw [hexEncode_length, hmacSha256_length]
  · exact hexEncode_chars _

/-- Closed instance of C10: the empty signature (an absent header) is
rejected for a trusted client; the digest-length part of the theorem
itself shows the empty string can never equal the 64-character digest. -/
theorem c10_signature_exact_match_witness :
    verifyWebhook (samplePayload 1701272333) "" "127.0.0.1" sampleConfig
      "production" 1701272333 =
      { isValid := false, error := some "Invalid signature", timestamp := none } := by
  have t := c10_signature_exact_match (samplePayload 1701272333) "" "127.0.0.1"
    sampleConfig "production" 1701272333
  refine t.1 (by decide) ?_
  intro h
  have hl := t.2.1
  rw [← h] at hl
  exact absurd hl (by decide)

theorem toDigitsCore_shift : ∀ (n fuel : Nat) (ds : List Char), n < fuel →
    Nat.toDigitsCore 10 fuel n ds = Nat.toDigits 10 n ++ ds := by
  intro n
  induction n using Nat.strong_induction_on with
  | _ n ih =>
    intro fuel ds hfuel
    match fuel, hfuel with
    | fuel + 1, _ =>
      rw [Nat.toDigitsCore, Nat.toDigits, Nat.toDigitsCore]
      by_cases h : n / 10 = 0
      · simp only [h, if_pos rfl, if_true]
        rfl
      · rw [if_neg h, if_neg h]
        have hlt : n / 10 < n := Nat.div_lt_self (by omega) (by omega)
        rw [ih (n / 10) hlt fuel _ (by omega), ih (n / 10) hlt n _ (by omega)]
        simp

theorem toDigits_recurrence (n : Nat) :
    Nat.toDigits 10 n =
      if n < 10 then [Nat.digitChar n]
      else Nat.toDigits 10 (n / 10) ++ [Nat.digitChar (n % 10)] := by
  rw [Nat.toDigits, Nat.toDigitsCore]
  by_cases h : n < 10
  · have h0 : n / 10 = 0 := Nat.div_eq_of_lt h
    rw [if_pos h, h0, if_pos rfl, Nat.mod_eq_of_lt h]
  · have h0 : n / 10 ≠ 0 := by omega
    rw [if_neg h, if_neg h0]
    have hlt : n / 10 < n := Nat.div_lt_self (by omega) (by omega)
    exact toDigitsCore_shift (n / 10) n _ (by omega)

/-- Numeric value of a decimal digit character. -/
def charDigitVal (c : Char) : Nat := c.toNat - 48

/-- Value of a most-significant-first decimal digit string. -/
def digitsVal (l : List Char) : Nat :=
  l.foldl (fun acc c => 10 * acc + charDigitVal c) 0

theorem charDigitVal_digitChar {m : Nat} (h : m < 10) :
    charDigitVal (Nat.digitChar m) = m := by
  interval_cases m <;> rfl

theorem digitsVal_toDigits (n : Nat) : digitsVal (Nat.toDigits 10 n) = n := by
  induction n using Nat.strong_induction_on with
  | _ n ih =>
    rw [toDigits_recurrence]
    by_cases h : n < 10
    · rw [if_pos h]
      show 10 * 0 + charDigitVal (Nat.digitChar n) = n
      rw [charDigitVal_digitChar h]
      omega
    · rw [if_neg h]
      have ihd := ih (n / 10) (Nat.div_lt_self (by omega) (by omega))
      rw [digitsVal, List.foldl_append]
      rw [show List.foldl (fun acc c => 10 * acc + charDigitVal c) 0
        (Nat.toDigits 10 (n / 10)) = digitsVal (Nat.toDigits 10 (n / 10)) from rfl, ihd]
      show 10 * (n / 10) + charDigitVal (Nat.digitChar (n % 10)) = n
      rw [charDigitVal_digitChar (Nat.mod_lt _ (by omega))]
      omega

theorem toDigits_head_decimal (n : Nat) :
    ∃ c l, Nat.toDigits 10 n = c :: l ∧ c ∈ "0123456789".data := by
  induction n using Nat.strong_induction_on with
  | _ n ih =>
    rw [toDigits_recurrence]
    by_cases h : n < 10
    · rw [if_pos h]
      exact ⟨Nat.digitChar n, [], rfl, by interval_cases n <;> decide⟩
    · rw [if_neg h]
      obtain ⟨c, l, hcl, hc⟩ := ih (n / 10) (Nat.div_lt_self (by omega) (by omega))
      exact ⟨c, l ++ [Nat.digitChar (n % 10)], by rw [hcl]; rfl, hc⟩

theorem natRepr_injective : Function.Injective Nat.repr := by
  intro m n h
  have hd : Nat.toDigits 10 m = Nat.toDigits 10 n := by
    have := congrArg String.data h
    simpa [Nat.repr, List.asString] using this
  calc m = digitsVal (Nat.toDigits 10 m) := (digitsVal_toDigits m).symm
    _ = digitsVal (Nat.toDigits 10 n) := by rw [hd]
    _ = n := digitsVal_toDigits n

theorem natRepr_data (n : Nat) : (Nat.repr n).data = Nat.toDigits 10 n := rfl

theorem intToString_injective : Function.Injective (fun i : Int => toString i) := by
  intro i j h
  simp only at h
  match i, j with
  | Int.ofNat m, Int.ofNat n =>
      have hr : Nat.repr m = Nat.repr n := h
      rw [natRepr_injective hr]
  | Int.ofNat m, Int.negSucc n =>
      exfalso
      have hd := congrArg String.data h
      obtain ⟨c, l, hcl, hc⟩ := toDigits_head_decimal m
      rw [show (toString (Int.ofNat m)).data = Nat.toDigits 10 m from rfl] at hd
      rw [show (toString (Int.negSucc n)).data =
        '-' :: Nat.toDigits 10 (n + 1) from rfl] at hd
      rw [hcl] at hd
      have : c = '-' := by injection hd
      subst this
      revert hc
      decide
  | Int.negSucc m, Int.ofNat n =>
      exfalso
      have hd := congrArg String.data h
      obtain ⟨c, l, hcl, hc⟩ := toDigits_head_decimal n
      rw [show (toString (Int.ofNat n)).data = Nat.toDigits 10 n from rfl] at hd
      rw [show (toString (Int.negSucc m)).data =
        '-' :: Nat.toDigits 10 (m + 1) from rfl] at hd
      rw [hcl] at hd
      have : '-' = c := by injection hd
      subst this
      revert hc
      decide
  | Int.negSucc m, Int.negSucc n =>
      have hd := congrArg String.data h
      rw [show (toString (Int.negSucc m)).data =
        '-' :: Nat.toDigits 10 (m + 1) from rfl] at hd
      rw [show (toString (Int.negSucc n)).data =
        '-' :: Nat.toDigits 10 (n + 1) from rfl] at hd
      have hdig : Nat.toDigits 10 (m + 1) = Nat.toDigits 10 (n + 1) := by injection hd
      have : Nat.repr (m + 1) = Nat.repr (n + 1) := String.ext hdig
      have hmn := natRepr_injective this
      have : m = n := by omega
      rw [this]

/-- Two payloads that agree on all fields except exactly one. -/
def DiffersInExactlyOneField (p q : YaYaWebhookPayload) : Prop :=
  (p.id ≠ q.id ∧ p.amount = q.amount ∧ p.currency = q.currency ∧
    p.created_at_time = q.created_at_time ∧ p.timestamp = q.timestamp ∧
    p.cause = q.cause ∧ p.full_name = q.full_name ∧
    p.account_name = q.account_name ∧ p.invoice_url = q.invoice_url) ∨
  (p.id = q.id ∧ p.amount ≠ q.amount ∧ p.currency = q.currency ∧
    p.created_at_time = q.created_at_time ∧ p.timestamp = q.timestamp ∧
    p.cause = q.cause ∧ p.full_name = q.full_name ∧
    p.account_name = q.account_name ∧ p.invoice_url = q.invoice_url) ∨
  (p.id = q.id ∧ p.amount = q.amount ∧ p.currency ≠ q.currency ∧
    p.created_at_time = q.created_at_time ∧ p.timestamp = q.timestamp ∧
    p.cause = q.cause ∧ p.full_name = q.full_name ∧
    p.account_name = q.account_name ∧ p.invoice_url = q.invoice_url) ∨
  (p.id = q.id ∧ p.amount = q.amount ∧ p.currency = q.currency ∧
    p.created_at_time ≠ q.created_at_time ∧ p.timestamp = q.timestamp ∧
    p.cause = q.cause ∧ p.full_name = q.full_name ∧
    p.account_name = q.account_name ∧ p.invoice_url = q.invoice_url) ∨
  (p.id = q.id ∧ p.amount = q.amount ∧ p.currency = q.currency ∧
    p.created_at_time = q.created_at_time ∧ p.timestamp ≠ q.timestamp ∧
    p.cause = q.cause ∧ p.full_name = q.full_name ∧
    p.account_name = q.account_name ∧ p.invoice_url = q.invoice_url) ∨
  (p.id = q.id ∧ p.amount = q.amount ∧ p.currency = q.currency ∧
    p.created_at_time = q.created_at_time ∧ p.timestamp = q.timestamp ∧
    p.cause ≠ q.cause ∧ p.full_name = q.full_name ∧
    p.account_name = q.account_name ∧ p.invoice_url = q.invoice_url) ∨
  (p.id = q.id ∧ p.amount = q.amount ∧ p.currency = q.currency ∧
    p.created_at_time = q.created_at_time ∧ p.timestamp = q.timestamp ∧
    p.cause = q.cause ∧ p.full_name ≠ q.full_name ∧
    p.account_name = q.account_name ∧ p.invoice_url = q.invoice_url) ∨
  (p.id = q.id ∧ p.amount = q.amount ∧ p.currency = q.currency ∧
    p.created_at_time = q.created_at_time ∧ p.timestamp = q.timestamp ∧
    p.cause = q.cause ∧ p.full_name = q.full_name ∧
    p.account_name ≠ q.account_name ∧ p.invoice_url = q.invoice_url) ∨
  (p.id = q.id ∧ p.amount = q.amount ∧ p.currency = q.currency ∧
    p.created_at_time = q.created_at_time ∧ p.timestamp = q.timestamp ∧
    p.cause = q.cause ∧ p.full_name = q.full_name ∧
    p.account_name = q.account_name ∧ p.invoice_url ≠ q.invoice_url)

theorem createSignedPayload_data (p : YaYaWebhookPayload) :
    (createSignedPayload p).data =
      p.id.data ++ ((toString p.amount).data ++ (p.currency.data ++
        ((toString p.created_at_time).data ++ ((toString p.timestamp).data ++
        (p.cause.data ++ (p.full_name.data ++ (p.account_name.data ++
        p.invoice_url.data))))))) := by
  unfold createSignedPayload
  rw [string_join_nine]
  simp [String.data_append, List.append_assoc]

/-- C8: payloads that differ in exactly one field have different canonical
serializations; consequently, equal signatures for the two payloads under
any secret would exhibit an HMAC-SHA256 collision on two distinct
canonical strings — absent such a collision, a signature valid for one
payload is invalid for the other. -/
theorem c8_one_field_change_breaks_signature (p q : YaYaWebhookPayload)
    (hdiff : DiffersInExactlyOneField p q) :
    createSignedPayload p ≠ createSignedPayload q ∧
    (∀ s : String, generateSignature p s = generateSignature q s →
      ∃ c1 c2 : String, c1 ≠ c2 ∧
        hexEncode (hmacSha256 (utf8Bytes s) (utf8Bytes c1)) =
          hexEncode (hmacSha256 (utf8Bytes s) (utf8Bytes c2))) := by
  have hne : createSignedPayload p ≠ createSignedPayload q := by
    intro heq
    have hd : (createSignedPayload p).data = (createSignedPayload q).data :=
      congrArg String.data heq
    rw [createSignedPayload_data, createSignedPayload_data] at hd
    rcases hdiff with
      ⟨h1, h2, h3, h4, h5, h6, h7, h8, h9⟩ | ⟨h1, h2, h3, h4, h5, h6, h7, h8, h9⟩ |
      ⟨h1, h2, h3, h4, h5, h6, h7, h8, h9⟩ | ⟨h1, h2, h3, h4, h5, h6, h7, h8, h9⟩ |
      ⟨h1, h2, h3, h4, h5, h6, h7, h8, h9⟩ | ⟨h1, h2, h3, h4, h5, h6, h7, h8, h9⟩ |
      ⟨h1, h2, h3, h4, h5, h6, h7, h8, h9⟩ | ⟨h1, h2, h3, h4, h5, h6, h7, h8, h9⟩ |
      ⟨h1, h2, h3, h4, h5, h6, h7, h8, h9⟩
    · rw [h2, h3, h4, h5, h6, h7, h8, h9] at hd
      exact h1 (String.ext (List.append_cancel_right hd))
    · rw [h1, h3, h4, h5, h6, h7, h8, h9] at hd
      have hk := List.append_cancel_right (List.append_cancel_left hd)
      exact h2 (intToString_injective (String.ext hk))
    · rw [h1, h2, h4, h5, h6, h7, h8, h9] at hd
      have hk := List.append_cancel_right
        (List.append_cancel_left (List.append_cancel_left hd))
      exact h3 (String.ext hk)
    · rw [h1, h2, h3, h5, h6, h7, h8, h9] at hd
      have hk := List.append_cancel_right (List.append_cancel_left
        (List.append_cancel_left (List.append_cancel_left hd)))
      exact h4 (intToString_injective (String.ext hk))
    · rw [h1, h2, h3, h4, h6, h7, h8, h9] at hd
      have hk := List.append_cancel_right (List.append_cancel_left
        (List.append_cancel_left (List.append_cancel_left
        (List.append_cancel_left hd))))
      exact h5 (intToString_injective (String.ext hk))
    · rw [h1, h2, h3, h4, h5, h7, h8, h9] at hd
      have hk := List.append_cancel_right (List.append_cancel_left
        (List.append_cancel_left (List.append_cancel_left
        (List.append_cancel_left (List.append_cancel_left hd)))))
      exact h6 (String.ext hk)
    · rw [h1, h2, h3, h4, h5, h6, h8, h9] at hd
      have hk := List.append_cancel_right (List.append_cancel_left
        (List.append_cancel_left (List.append_cancel_left
        (List.append_cancel_left (List.append_cancel_left
        (List.append_cancel_left hd))))))
      exact h7 (String.ext hk)
    · rw [h1, h2, h3, h4, h5, h6, h7, h9] at hd
      have hk := List.append_cancel_right (List.append_cancel_left
        (List.append_cancel_left (List.append_cancel_left
        (List.append_cancel_left (List.append_cancel_left
        (List.append_cancel_left (List.append_cancel_left hd)))))))
      exact h8 (String.ext hk)
    · rw [h1, h2, h3, h4, h5, h6, h7, h8] at hd
      have hk := List.append_cancel_left (List.append_cancel_left
        (List.append_cancel_left (List.append_cancel_left
        (List.append_cancel_left (List.append_cancel_left
        (List.append_cancel_left (List.append_cancel_left hd)))))))
      exact h9 (String.ext hk)
  exact ⟨hne, fun s hsig =>
    ⟨createSignedPayload p, createSignedPayload q, hne, hsig⟩⟩

/-- The spec's sample payload with only the amount changed from 100 to
101. -/
def samplePayloadAmount101 : YaYaWebhookPayload :=
  { id := "1dd2854e-3a79-4548-ae36-97e4a18ebf81", amount := 101, currency := "ETB",
    created_at_time := 1673381836, timestamp := 1701272333, cause := "Testing",
    full_name := "Abebe Kebede", account_name := "abebekebede1",
    invoice_url := "https://yayawallet.com/en/invoice/xxxx" }

/-- Closed instance of C8: changing only the amount (100 to 101) of the
spec's sample payload changes the canonical serialization. -/
theorem c8_one_field_change_breaks_signature_witness :
    createSignedPayload (samplePayload 1701272333) ≠
      createSignedPayload samplePayloadAmount101 :=
  (c8_one_field_change_breaks_signature (samplePayload 1701272333)
    samplePayloadAmount101
    (Or.inr (Or.inl ⟨rfl, by decide, rfl, rfl, rfl, rfl, rfl, rfl, rfl⟩))).1

set_option maxRecDepth 4000 in
/-- C2: evaluation of the code at the code_bug's failing input. The
expected digest of the spec's sample payload under secret `s3cr3t` is the
64-character lowercase hex string below, and a supplied signature
differing from it only in the final hex character is rejected with the
invalid-signature reason. The comparison producing this verdict is the
early-exit string inequality of the source, not the timing-safe byte
comparison the claim requires; that timing difference has no image in
this embedding. -/
theorem c2_comparison_rejects_byte_difference :
    generateSignature (samplePayload 1701272333) "s3cr3t" =
      "7ac6b89f81ac2fe50969c6884502749d2d27b86c393fa57ffdb931f408423e0e" ∧
    verifyWebhook (samplePayload 1701272333)
        "7ac6b89f81ac2fe50969c6884502749d2d27b86c393fa57ffdb931f408423e0f"
        "127.0.0.1" sampleConfig "production" 1701272333 =
      { isValid := false, error := some "Invalid signature", timestamp := none } := by
  constructor
  · decide
  · decide
